import Mathlib

/-!
Shallow embedding of the moz-update-checker WebExtension
(`src/shared_functions.js`, `src/background_script.js`).

JS strings are modelled as `List Char` at the algorithmic level (a JS string is a
sequence of code units) with `String` at the API boundary; JS `null`/`undefined`
arguments and fields are modelled with `Option`; the WebExtension local/sync
storage keys touched by the checker are threaded as explicit state.
-/

/-! ### JS string primitives used by `shared_functions.js` -/

/-- Whitespace predicate backing `String.prototype.trim` (ASCII-equivalent model). -/
def jsWhitespace (c : Char) : Bool := c.isWhitespace

/-- JS `s.trim()`: strip leading and trailing whitespace. -/
def trimL (l : List Char) : List Char :=
  ((l.dropWhile jsWhitespace).reverse.dropWhile jsWhitespace).reverse

/-- JS `s.split(sep)` for a single-character separator; always returns a non-empty list,
`"".split(sep) == [""]`. -/
def splitOnChar (sep : Char) : List Char → List (List Char)
  | [] => [[]]
  | c :: rest =>
    let r := splitOnChar sep rest
    if c = sep then [] :: r
    else (c :: r.headD []) :: r.tail

/-- JS `parts.join(sep)` for a single-character separator. -/
def intercalateChar (sep : Char) : List (List Char) → List Char
  | [] => []
  | [x] => x
  | x :: y :: rest => x ++ sep :: intercalateChar sep (y :: rest)

/-- Numeric value of a decimal digit character. -/
def digitVal (c : Char) : Int := Int.ofNat (c.toNat - '0'.toNat)

/-- JS `parseInt(s, 10)`: skip leading whitespace, optional sign, then the longest
decimal-digit prefix; `none` models `NaN` (no digits found). -/
def parseIntJS (l : List Char) : Option Int :=
  let l1 := l.dropWhile jsWhitespace
  let signAndRest : Int × List Char :=
    match l1 with
    | '-' :: rest => (-1, rest)
    | '+' :: rest => (1, rest)
    | _ => (1, l1)
  let ds := signAndRest.2.takeWhile Char.isDigit
  if ds.isEmpty then none
  else some (signAndRest.1 * ds.foldl (fun acc c => acc * 10 + digitVal c) 0)

/-- The test `suffix.startsWith("gnu")` (line 262 of `shared_functions.js`). -/
def hasGnuMarker : List Char → Bool
  | 'g' :: 'n' :: 'u' :: _ => true
  | _ => false

/-- JS `lSuffix.localeCompare(bSuffix)` as realised by the engine: the sign of the
code-point lexicographic comparison, normalised to `-1 | 0 | 1`. -/
def lexCmp : List Char → List Char → Int
  | [], [] => 0
  | [], _ :: _ => -1
  | _ :: _, [] => 1
  | a :: as, b :: bs => if a < b then -1 else if b < a then 1 else lexCmp as bs

/-! ### `updateChecker.compareVersions` (shared_functions.js lines 197-281) -/

/-- The component-wise loop of lines 251-254: first differing component decides. -/
def cmpNums : List Int → List Int → Int
  | a :: as, b :: bs => if a > b then 1 else if a < b then -1 else cmpNums as bs
  | _, _ => 0

/-- Lines 246-248: right-pad the shorter numeric core with zeros. -/
def padZeros (l : List Int) (n : Nat) : List Int :=
  l ++ List.replicate (n - l.length) 0

/-- Result of the `parsePart` helper (lines 217-231). -/
structure ParsedVersion where
  numbers : List Int
  suffix : Option (List Char)
deriving DecidableEq

/-- Helper `parsePart` (lines 217-231): split on `-` into base and suffix, strip a leading
`v`, split the base on `.` into integers where a `NaN` component becomes `-1`. -/
def parsePart (v : List Char) : ParsedVersion :=
  let parts := splitOnChar '-' v
  let p0 := parts.headD []
  let base := match p0 with
    | 'v' :: rest => rest
    | _ => p0
  let suffix := if parts.length > 1 then some (intercalateChar '-' parts.tail) else none
  let numbers := (splitOnChar '.' base).map (fun p => (parseIntJS p).getD (-1))
  ⟨numbers, suffix⟩

/-- The suffix cascade of lines 257-280, reached when the numeric cores tie:
both absent ⇒ 0; a latest-side suffix starting with `gnu` ⇒ 1; browser suffix
absent ⇒ -1; latest suffix absent ⇒ 1; both numeric ⇒ numeric order; otherwise
`lSuffix.localeCompare(bSuffix)`. -/
def suffixCompare (bSuffix lSuffix : Option (List Char)) : Int :=
  if bSuffix = none ∧ lSuffix = none then 0
  else if (match lSuffix with | some ls => hasGnuMarker ls | none => false) then 1
  else if bSuffix = none then -1
  else if lSuffix = none then 1
  else
    let bs := bSuffix.getD []
    let ls := lSuffix.getD []
    match parseIntJS bs, parseIntJS ls with
    | some bn, some ln => if bn > ln then 1 else if bn < ln then -1 else 0
    | _, _ => lexCmp ls bs

/-- The body of `compareVersions` after input validation (lines 212-280); this part
of the source always returns a number. -/
def compareCore (browserVersion latestVersion : List Char) : Int :=
  let bv := trimL browserVersion
  let lv := trimL latestVersion
  let pb := parsePart bv
  let pl := parsePart lv
  let maxLength := max pb.numbers.length pl.numbers.length
  let c := cmpNums (padZeros pb.numbers maxLength) (padZeros pl.numbers maxLength)
  if c ≠ 0 then c else suffixCompare pb.suffix pl.suffix

/-- Source `updateChecker.compareVersions` (lines 197-281). A JS argument that is not a
string is `none`; the validation of lines 199-210 returns `null` (`none`) when
either argument is not a non-empty string. -/
def compareVersions (browserVersion latestVersion : Option String) : Option Int :=
  match browserVersion, latestVersion with
  | some bv, some lv =>
      if bv = "" ∨ lv = "" then none
      else some (compareCore bv.toList lv.toList)
  | _, _ => none

/-! ### `updateChecker.detectFirefoxRelease` (shared_functions.js lines 284-341) -/

/-- Outcome of `detectFirefoxRelease`: the early `return null` of the input
validation, a returned channel value (lines 322/328/334 return the raw object
field, which may be `undefined`), or the `throw` with `cause: "unsupported"`
of lines 336-340. -/
inductive DetectResult where
  | nullResult
  | found (v : Option String)
  | unsupportedThrow
deriving DecidableEq

/-- Lookup `latestObject[k]` for a JS object of string values, modelled as an
association list; `none` is `undefined` (key absent). -/
def lookupKV (kvs : List (String × String)) (k : String) : Option String :=
  (kvs.find? (fun p => p.1 = k)).map Prod.snd

/-- The prefix of the string before the first occurrence of `"esr"`
(`v.split("esr")[0]`). -/
def takeBeforeEsr : List Char → List Char
  | [] => []
  | 'e' :: 's' :: 'r' :: _ => []
  | c :: rest => c :: takeBeforeEsr rest

/-- The `stripESR` helper (line 286): `v?.split("esr")[0]`; `undefined` stays
`undefined`. -/
def stripESR (v : Option String) : Option String :=
  v.map (fun s => ⟨takeBeforeEsr s.toList⟩)

/-- JS `x <= 0` where `x` is a number or `null` (`ToNumber(null) = 0`). -/
def jsLE0 (c : Option Int) : Bool := (c.getD 0) ≤ 0

/-- JS `x > 0` where `x` is a number or `null`. -/
def jsGT0 (c : Option Int) : Bool := (c.getD 0) > 0

/-- Source `updateChecker.detectFirefoxRelease` (lines 284-341). `browserVersion = none`
models a non-string argument; `latestObject = none` models `null` or a
non-object argument. The cascade of lines 317-340: LATEST when
`cmpLatest <= 0 && cmpESR > 0`, ESR when `cmpESR <= 0 && cmpESR115 > 0`,
ESR115 when `cmpESR115 <= 0`, otherwise `throw` with cause `"unsupported"`. -/
def detectFirefoxRelease (browserVersion : Option String)
    (latestObject : Option (List (String × String))) : DetectResult :=
  match browserVersion with
  | none => .nullResult
  | some bv =>
    if bv = "" then .nullResult
    else match latestObject with
      | none => .nullResult
      | some kvs =>
        if kvs.length = 0 then .nullResult
        else
          let latestVersion := lookupKV kvs "LATEST_FIREFOX_VERSION"
          let esrVersion := stripESR (lookupKV kvs "FIREFOX_ESR")
          let esr115Version := stripESR (lookupKV kvs "FIREFOX_ESR115")
          let cmpLatest := compareVersions (some bv) latestVersion
          let cmpESR := compareVersions (some bv) esrVersion
          let cmpESR115 := compareVersions (some bv) esr115Version
          if jsLE0 cmpLatest ∧ jsGT0 cmpESR then
            .found (lookupKV kvs "LATEST_FIREFOX_VERSION")
          else if jsLE0 cmpESR ∧ jsGT0 cmpESR115 then
            .found (lookupKV kvs "FIREFOX_ESR")
          else if jsLE0 cmpESR115 then
            .found (lookupKV kvs "FIREFOX_ESR115")
          else .unsupportedThrow

/-- The concrete release-channel snapshot used in the spec's examples. -/
def snapshotC3 : List (String × String) :=
  [("LATEST_FIREFOX_VERSION", "142.0"),
   ("FIREFOX_ESR", "140.1.0esr"),
   ("FIREFOX_ESR115", "115.6.0esr")]

/-! ### `updateChecker.isRunning` (shared_functions.js lines 556-596)

The stored `is_running` entry is `{ expires }`; state is `Option Int`
(`none` = key absent). The function returns its JS return value together with
the storage state after the call. -/

/-- Default `expiresMs` parameter (2 minutes). -/
def isRunningDefaultExpiresMs : Int := 2 * 60 * 1000

/-- Source `updateChecker.isRunning(setRunning, expiresMs)`: `setRunning = some true`
stores `{expires: now + expiresMs}` unconditionally and returns `true`
(lines 565-578); `some false` removes the key and returns `false`
(lines 580-584); `none` (the default, a status query) returns `true` iff a
stored entry has `expires > now`, leaving the state unchanged
(lines 586-595). -/
def isRunning (setRunning : Option Bool) (expiresMs now : Int)
    (lease : Option Int) : Bool × Option Int :=
  match setRunning with
  | some true => (true, some (now + expiresMs))
  | some false => (false, none)
  | none =>
    match lease with
    | some expires => (decide (expires > now), some expires)
    | none => (false, none)

/-! ### `updateChecker.fetchLatestVersion` (shared_functions.js lines 345-441)

Only the deterministic prefix up to the network loop is state-relevant: the
function reads the per-browser `version_cache_*` entry, unconditionally calls
`this.isRunning(true)` (line 360, comment `// Lock`), and only then tests
`this.useCache && cachedEntry && now - cachedEntry.timestamp < ttlMs`
(line 362). The retry/backoff loop that follows touches the network. -/

/-- A fetched release descriptor: the Firefox flat string map, the LibreWolf
release array (its elements' `name` fields), or the IceCat object's
`tag_name`. -/
inductive FetchPayload where
  | obj (kvs : List (String × String))
  | arr (names : List (Option String))
  | tag (tagName : Option String)
deriving DecidableEq

/-- A stored `version_cache_<browserName>` entry: `{ data, timestamp }`. -/
structure VersionCacheEntry where
  data : FetchPayload
  timestamp : Int
deriving DecidableEq

/-- Property `this.useCache` is read at line 362 of `shared_functions.js` but is never
assigned anywhere in the repository, so its value is always `undefined`. -/
def updateCheckerUseCacheProp : Option Bool := none

/-- Truthiness of a JS boolean-or-undefined value. -/
def jsTruthy (o : Option Bool) : Bool := o.getD false

/-- How the prefix of `fetchLatestVersion` resolves: either the cached data is
returned (lease state after the release at line 368), or control proceeds to
the network retry loop (lease state after the acquisition at line 360). -/
inductive FetchDecision where
  | cachedReturn (data : FetchPayload) (lease : Option Int)
  | networkAttempt (lease : Option Int)
deriving DecidableEq

/-- The deterministic prefix of `fetchLatestVersion` (lines 352-370): read the
cache entry, acquire the run lease, and either return the fresh cached data
(releasing the lease) or fall through to the network loop. -/
def fetchLatestVersionPrefix (useCacheProp : Option Bool) (ttlMs now : Int)
    (cachedEntry : Option VersionCacheEntry) (lease : Option Int) : FetchDecision :=
  let lease1 := (isRunning (some true) isRunningDefaultExpiresMs now lease).2
  match cachedEntry with
  | some e =>
      if jsTruthy useCacheProp ∧ now - e.timestamp < ttlMs then
        .cachedReturn e.data (isRunning (some false) isRunningDefaultExpiresMs now lease1).2
      else .networkAttempt lease1
  | none => .networkAttempt lease1

/-! ### `updateChecker.isLatest` (shared_functions.js lines 444-553) -/

/-- A stored `is_latest` entry: `{ latest, result, timestamp }`; `latest` and
`result` can be `null`/`undefined` when a previous check could not resolve
them. -/
structure StateEntry where
  latest : Option String
  result : Option Bool
  timestamp : Int
deriving DecidableEq

/-- A JS return value of `isLatest`: `undefined`, `null`, or a boolean. -/
inductive JSRet where
  | undef
  | nullv
  | boolv (b : Bool)
deriving DecidableEq

/-- The environment a single `isLatest` call runs in: the browser identity
reported by `browser.runtime.getBrowserInfo()`, the current clock, and the
value `fetchLatestVersion` would resolve to if invoked (`none` = it returned
`null` after exhausting its retries). -/
structure CheckerEnv where
  browserName : String
  browserVersion : String
  now : Int
  fetchResult : Option FetchPayload
deriving DecidableEq

/-- Everything observable about one `isLatest` call: its JS return value, the
`is_latest` and `is_running` storage after the call, whether
`fetchLatestVersion` was invoked, and whether `this.error` was assigned during
the call (`some c` = assigned, with `c` the JS error's `cause`). -/
structure ILOutcome where
  result : JSRet
  entry : Option StateEntry
  lease : Option Int
  fetchCalled : Bool
  errorSet : Option (Option String)
deriving DecidableEq

/-- Constant `MOZ_UPDATE_CHECK_APIS` (shared_functions.js lines 22-27). -/
def MOZ_UPDATE_CHECK_APIS : List (String × String) :=
  [("Firefox", "https://product-details.mozilla.org/1.0/firefox_versions.json"),
   ("LibreWolf", "https://gitlab.com/api/v4/projects/44042130/releases.json"),
   ("IceCat", "https://api.github.com/repos/ryan-steed-usa/gnu-icecat-mirror/releases/latest")]

/-- The `latestObject` argument the Firefox branch passes to
`detectFirefoxRelease`: the response object when the payload is the Firefox
flat map, `null` otherwise (on the cached path `latestResponse` is `null`). -/
def payloadToObj : Option FetchPayload → Option (List (String × String))
  | some (.obj kvs) => some kvs
  | _ => none

/-- Expression `latestResponse[0]?.name` of the LibreWolf branch (line 510): indexing
`null` throws a `TypeError` (`Except.error`); an empty array or a missing
`name` field gives `undefined`. -/
def librewolfFirstName : Option FetchPayload → Except Unit (Option String)
  | none => .error ()
  | some (.arr names) => .ok ((names.head?).getD none)
  | some _ => .ok none

/-- Expression `latestResponse?.tag_name` of the IceCat branch (line 513): optional
chaining, so `null` gives `undefined` without throwing. -/
def icecatTagName : Option FetchPayload → Option String
  | some (.tag t) => t
  | _ => none

/-- Source `updateChecker.isLatest(useCache)` (lines 444-553) over explicit storage
state. `entry0` is the stored `is_latest` entry, `lease0` the stored
`is_running` entry. Side-effect trace of the source:
line 451 removes the stored entry when `!useCache`; line 455 queries the run
lease; line 461 returns `undefined` when running; lines 464-470 throw
`"unsupported"` for a browser without a configured URL (the catch at 547-552
releases the lease and returns `null`); lines 482-489 fetch (only when
`!useCache`; `fetchLatestVersion` itself releases the lease before resolving)
and return `null` on a null response; lines 497-516 resolve `latestVersion`
from the stored entry or the per-browser extraction (which can throw);
lines 519-544 compute the comparison and the result and persist the new entry
when `!useCache`. -/
def isLatest (useCache : Bool) (env : CheckerEnv) (entry0 : Option StateEntry)
    (lease0 : Option Int) : ILOutcome :=
  let entry1 : Option StateEntry := if ¬useCache ∧ entry0.isSome then none else entry0
  let running := (isRunning none isRunningDefaultExpiresMs env.now lease0).1
  if running then
    ⟨.undef, entry1, lease0, false, none⟩
  else
    match lookupKV MOZ_UPDATE_CHECK_APIS env.browserName with
    | none =>
        ⟨.nullv, entry1, none, false, some (some "unsupported")⟩
    | some _ =>
      let latestResponse : Option FetchPayload := if useCache then none else env.fetchResult
      let fetchCalled := ¬useCache
      let lease1 : Option Int := if useCache then lease0 else none
      if latestResponse.isNone ∧ ¬useCache then
        ⟨.nullv, entry1, none, fetchCalled, some none⟩
      else
        let usedStored : Bool := useCache && (match entry0 with
          | some e => e.latest.isSome
          | none => false)
        let latestComputed : Except (Option String) (Option String) :=
          if usedStored then .ok (entry0.bind (·.latest))
          else
            match env.browserName with
            | "Firefox" =>
                match detectFirefoxRelease (some env.browserVersion)
                    (payloadToObj latestResponse) with
                | .nullResult => .ok none
                | .found v => .ok v
                | .unsupportedThrow => .error (some "unsupported")
            | "LibreWolf" =>
                match librewolfFirstName latestResponse with
                | .ok v => .ok v
                | .error _ => .error none
            | "IceCat" => .ok (icecatTagName latestResponse)
            | _ => .ok none
        match latestComputed with
        | .error c => ⟨.nullv, entry1, none, fetchCalled, some c⟩
        | .ok latestVersion =>
          let lastChecked : Int :=
            if usedStored then ((entry0.map (·.timestamp)).getD 0) else env.now
          let comparison : Option Int :=
            if useCache ∧ entry0.isSome then none
            else compareVersions (some env.browserVersion) latestVersion
          let result : JSRet :=
            if useCache ∧ entry0.isSome then
              match entry0 with
              | some e => match e.result with
                | some b => .boolv b
                | none => .nullv
              | none => .nullv
            else match comparison with
              | none => .nullv
              | some c => .boolv (c ≥ 0)
          if ¬useCache then
            let stored : Option Bool := match result with
              | .boolv b => some b
              | _ => none
            ⟨result, some ⟨latestVersion, stored, lastChecked⟩, lease1, fetchCalled, none⟩
          else
            ⟨result, entry1, lease1, fetchCalled, none⟩

/-! ### `runChecker` and the alarm listener (background_script.js lines 8-34, 225) -/

/-- What one `runChecker` call does (toolbar-icon updates are UI-only and out of
scope): the `isLatest` return value and resulting storage, plus whether
`sendNotification()` was invoked (line 27: `scheduled && isLatest !== true`). -/
structure RunOutcome where
  result : JSRet
  entry : Option StateEntry
  lease : Option Int
  fetchCalled : Bool
  notified : Bool
deriving DecidableEq

/-- Source `runChecker(useCache, scheduled)` (background_script.js lines 8-34). -/
def runChecker (useCache scheduled : Bool) (env : CheckerEnv)
    (entry0 : Option StateEntry) (lease0 : Option Int) : RunOutcome :=
  let o := isLatest useCache env entry0 lease0
  ⟨o.result, o.entry, o.lease, o.fetchCalled, scheduled ∧ o.result ≠ .boolv true⟩

/-- A `browser.alarms` alarm object as delivered to `onAlarm` listeners. -/
structure AlarmInfo where
  name : String
  scheduledTime : Int
  periodInMinutes : Int
deriving DecidableEq

/-- Listener `browser.alarms.onAlarm.addListener(runChecker)` (background_script.js
line 225) invokes `runChecker` with the alarm object bound to the `useCache`
parameter; a JS object is always truthy, and the `scheduled` parameter keeps
its default `true`. -/
def alarmTruthy (_ : AlarmInfo) : Bool := true

/-- A scheduled alarm fire: `runChecker(alarm)`. -/
def onAlarmFired (alarm : AlarmInfo) (env : CheckerEnv)
    (entry0 : Option StateEntry) (lease0 : Option Int) : RunOutcome :=
  runChecker (alarmTruthy alarm) true env entry0 lease0

/-! ### `sendNotification` (background_script.js lines 150-215) -/

/-- The two `browser.storage.sync` keys `sendNotification` reads and writes. -/
structure SyncSettings where
  alert_type : Option String
  alarm_schedule : Option String
deriving DecidableEq

/-- Observable effects of one `sendNotification` call: the sync settings after
the call, whether a tab was opened, whether a desktop notification was
created, and whether `alarmScheduler.update()` was invoked (line 202, which
with `alarm_schedule = "0"` clears the periodic alarm). -/
structure NotifyOutcome where
  sync : SyncSettings
  openedTab : Bool
  sentNotif : Bool
  alarmRescheduled : Bool
deriving DecidableEq

/-- The configuration object `sendNotification` reads (lines 153-173): managed
storage when it is available and non-empty, else sync storage. -/
def effectiveConfig (managed : Option SyncSettings) (sync0 : SyncSettings) :
    SyncSettings :=
  match managed with
  | some m => m
  | none => sync0

/-- Source `sendNotification()` (lines 150-215). `errorState = some c` models a truthy
`updateChecker.error` whose `cause` is `c`; `none` models no error. A tab
opens when the alert type is `"tab"` or `"both"` (lines 178-180); the desktop
notification branch runs when it is `"notif"` or `"both"` (line 183), and only
inside that branch, when the error cause is `"unsupported"`, the sync settings
are overwritten with `{alert_type: "both", alarm_schedule: "0"}` and the alarm
is rescheduled (lines 192-203). -/
def sendNotification (managed : Option SyncSettings) (sync0 : SyncSettings)
    (errorState : Option (Option String)) : NotifyOutcome :=
  let result := effectiveConfig managed sync0
  let alertType := result.alert_type
  let openTab := alertType = some "tab" ∨ alertType = some "both"
  if alertType = some "notif" ∨ alertType = some "both" then
    match errorState with
    | some c =>
        if c = some "unsupported" then
          ⟨⟨some "both", some "0"⟩, openTab, true, true⟩
        else ⟨sync0, openTab, true, false⟩
    | none => ⟨sync0, openTab, true, false⟩
  else ⟨sync0, openTab, false, false⟩

/-! ### Lemmas about the version comparator -/

lemma cmpNums_cases (xs ys : List Int) :
    cmpNums xs ys = -1 ∨ cmpNums xs ys = 0 ∨ cmpNums xs ys = 1 := by
  induction xs generalizing ys with
  | nil => cases ys <;> simp [cmpNums]
  | cons a as ih =>
    cases ys with
    | nil => simp [cmpNums]
    | cons b bs =>
      simp only [cmpNums]
      split
      · simp
      · split
        · simp
        · exact ih bs

lemma lexCmp_cases (xs ys : List Char) :
    lexCmp xs ys = -1 ∨ lexCmp xs ys = 0 ∨ lexCmp xs ys = 1 := by
  induction xs generalizing ys with
  | nil => cases ys <;> simp [lexCmp]
  | cons a as ih =>
    cases ys with
    | nil => simp [lexCmp]
    | cons b bs =>
      simp only [lexCmp]
      split
      · simp
      · split
        · simp
        · exact ih bs

lemma suffixCompare_cases (bS lS : Option (List Char)) :
    suffixCompare bS lS = -1 ∨ suffixCompare bS lS = 0 ∨ suffixCompare bS lS = 1 := by
  unfold suffixCompare
  split
  · simp
  split
  · simp
  split
  · simp
  split
  · simp
  dsimp only
  split
  · split
    · simp
    · split <;> simp
  · exact lexCmp_cases _ _

lemma compareCore_cases (x y : List Char) :
    compareCore x y = -1 ∨ compareCore x y = 0 ∨ compareCore x y = 1 := by
  unfold compareCore
  dsimp only
  split
  · exact cmpNums_cases _ _
  · exact suffixCompare_cases _ _

lemma cmpNums_antisymm (xs ys : List Int) : cmpNums ys xs = -cmpNums xs ys := by
  induction xs generalizing ys with
  | nil => cases ys <;> simp [cmpNums]
  | cons a as ih =>
    cases ys with
    | nil => simp [cmpNums]
    | cons b bs =>
      simp only [cmpNums]
      rcases lt_trichotomy a b with h | h | h
      · simp [show b > a from h, show ¬ a > b by omega, h]
      · subst h
        simp only [gt_iff_lt, lt_irrefl, if_false]
        exact ih bs
      · simp [show ¬ b > a by omega, show b < a from h, show a > b from h]

lemma mem_of_mem_dropWhileChar {c : Char} {p : Char → Bool} {l : List Char}
    (h : c ∈ l.dropWhile p) : c ∈ l := by
  induction l with
  | nil => simp at h
  | cons x xs ih =>
    by_cases hp : p x
    · rw [List.dropWhile_cons_of_pos hp] at h
      exact List.mem_cons_of_mem _ (ih h)
    · rwa [List.dropWhile_cons_of_neg hp] at h

lemma mem_of_mem_trimL {c : Char} {l : List Char} (h : c ∈ trimL l) : c ∈ l := by
  unfold trimL at h
  rw [List.mem_reverse] at h
  have h1 := mem_of_mem_dropWhileChar h
  rw [List.mem_reverse] at h1
  exact mem_of_mem_dropWhileChar h1

lemma splitOnChar_of_not_mem {sep : Char} {l : List Char} (h : sep ∉ l) :
    splitOnChar sep l = [l] := by
  induction l with
  | nil => rfl
  | cons c rest ih =>
    simp only [List.mem_cons, not_or] at h
    have hcs : ¬ c = sep := fun hc => h.1 hc.symm
    simp [splitOnChar, ih h.2, hcs]

lemma parsePart_suffix_eq_none {l : List Char} (h : '-' ∉ l) :
    (parsePart l).suffix = none := by
  unfold parsePart
  simp [splitOnChar_of_not_mem h]

lemma suffixCompare_none_none : suffixCompare none none = 0 := by
  simp [suffixCompare]

lemma neg_ite_ne (C : Int) :
    (if -C ≠ 0 then -C else (0 : Int)) = -(if C ≠ 0 then C else (0 : Int)) := by
  by_cases hC : C = 0 <;> simp [hC]

lemma compareCore_antisymm {x y : List Char} (hx : '-' ∉ x) (hy : '-' ∉ y) :
    compareCore x y = -compareCore y x := by
  have hx' : (parsePart (trimL x)).suffix = none :=
    parsePart_suffix_eq_none (fun hm => hx (mem_of_mem_trimL hm))
  have hy' : (parsePart (trimL y)).suffix = none :=
    parsePart_suffix_eq_none (fun hm => hy (mem_of_mem_trimL hm))
  unfold compareCore
  dsimp only
  rw [hx', hy', suffixCompare_none_none,
    max_comm (parsePart (trimL x)).numbers.length (parsePart (trimL y)).numbers.length,
    cmpNums_antisymm]
  exact neg_ite_ne _

/-! ### Lemmas about `isLatest` -/

lemma isLatest_cached_mode (env : CheckerEnv) (entry0 : Option StateEntry)
    (lease0 : Option Int) :
    (isLatest true env entry0 lease0).fetchCalled = false ∧
    (isLatest true env entry0 lease0).entry = entry0 := by
  unfold isLatest
  simp only [not_true, false_and, if_false, ite_true, Option.isNone_none, not_true_eq_false,
    and_false, decide_not]
  split
  · exact ⟨rfl, rfl⟩
  · split
    · exact ⟨rfl, rfl⟩
    · split
      · simp
      · split
        · exact ⟨rfl, rfl⟩
        · split
          · simp
          · simp

/-! ### Claim theorems -/

/-- Claim C1 (confirmed): every scheduled alarm fire invokes `runChecker` with the
alarm object bound to `useCache`; an object is truthy, so the alarm-driven check
runs in cached mode, never calls `fetchLatestVersion`, and leaves the persisted
`is_latest` check result untouched. -/
theorem alarm_fire_always_cached_mode (alarm : AlarmInfo) (env : CheckerEnv)
    (entry0 : Option StateEntry) (lease0 : Option Int) :
    (onAlarmFired alarm env entry0 lease0).fetchCalled = false ∧
    (onAlarmFired alarm env entry0 lease0).entry = entry0 :=
  ⟨(isLatest_cached_mode env entry0 lease0).1, (isLatest_cached_mode env entry0 lease0).2⟩

/-- Claim C2, counterexample: a scheduled fire whose last successful check
timestamp (0) is far older than the nominal fire time minus one full period
(100000000 − 480·60000) still runs in cached mode — no fetch happens, the
persisted result is returned and left untouched — contradicting the claimed
forced `useCache=false` compensation. -/
theorem missed_alarm_counterexample :
    (0 : Int) < 100000000 - 480 * 60000 ∧
    (onAlarmFired ⟨"moz-update-checker", 100000000, 480⟩ ⟨"Firefox", "141.0", 100000000, none⟩
        (some ⟨some "142.0", some false, 0⟩) none).fetchCalled = false ∧
    (onAlarmFired ⟨"moz-update-checker", 100000000, 480⟩ ⟨"Firefox", "141.0", 100000000, none⟩
        (some ⟨some "142.0", some false, 0⟩) none).entry = some ⟨some "142.0", some false, 0⟩ ∧
    (onAlarmFired ⟨"moz-update-checker", 100000000, 480⟩ ⟨"Firefox", "141.0", 100000000, none⟩
        (some ⟨some "142.0", some false, 0⟩) none).result = .boolv false := by
  decide

/-- Claim C2 (amended): there is no missed-wake-up compensation — even when the
last successful check timestamp is older than the trigger's nominal fire time
minus one full period, the scheduled fire still runs in cached mode
(`useCache` bound to the truthy alarm object): `fetchLatestVersion` is not
called and the persisted check result is not refreshed. -/
theorem missed_alarm_no_compensation (alarm : AlarmInfo) (env : CheckerEnv)
    (e : StateEntry) (lease0 : Option Int)
    (h : e.timestamp < alarm.scheduledTime - alarm.periodInMinutes * 60000) :
    (onAlarmFired alarm env (some e) lease0).fetchCalled = false ∧
    (onAlarmFired alarm env (some e) lease0).entry = some e :=
  ⟨(isLatest_cached_mode env (some e) lease0).1, (isLatest_cached_mode env (some e) lease0).2⟩

/-- Witness for C2's amended theorem at a concrete stale-check instance. -/
theorem missed_alarm_no_compensation_witness :
    ((5 : Int) < 50000000 - 240 * 60000) ∧
    ((onAlarmFired ⟨"moz-update-checker", 50000000, 240⟩ ⟨"LibreWolf", "141.0", 50000000, none⟩
        (some ⟨some "141.0", some true, 5⟩) none).fetchCalled = false ∧
     (onAlarmFired ⟨"moz-update-checker", 50000000, 240⟩ ⟨"LibreWolf", "141.0", 50000000, none⟩
        (some ⟨some "141.0", some true, 5⟩) none).entry = some ⟨some "141.0", some true, 5⟩) :=
  ⟨by decide,
   missed_alarm_no_compensation ⟨"moz-update-checker", 50000000, 240⟩
     ⟨"LibreWolf", "141.0", 50000000, none⟩ ⟨some "141.0", some true, 5⟩ none (by decide)⟩

/-- Claim C3, counterexample: for `"90.0"` — strictly older than every channel
floor of the snapshot — `detectFirefoxRelease` returns the ESR115 channel's
version string `"115.6.0esr"` instead of signalling the `"unsupported"`
failure. -/
theorem detect_below_all_floors_counterexample :
    detectFirefoxRelease (some "90.0") (some snapshotC3) = .found (some "115.6.0esr") ∧
    detectFirefoxRelease (some "90.0") (some snapshotC3) ≠ .unsupportedThrow := by
  decide

/-- Claim C3 (amended): when the current version compares strictly below the
LATEST, ESR and ESR115 floors, `detectFirefoxRelease` returns the
`FIREFOX_ESR115` channel value; the `"unsupported"` failure is signalled only
when the current version compares strictly above every channel. -/
theorem detect_below_all_floors_returns_esr115 (bv : String) (kvs : List (String × String))
    (hbv : bv ≠ "") (hkvs : kvs.length ≠ 0)
    (h1 : compareVersions (some bv) (lookupKV kvs "LATEST_FIREFOX_VERSION") = some (-1))
    (h2 : compareVersions (some bv) (stripESR (lookupKV kvs "FIREFOX_ESR")) = some (-1))
    (h3 : compareVersions (some bv) (stripESR (lookupKV kvs "FIREFOX_ESR115")) = some (-1)) :
    detectFirefoxRelease (some bv) (some kvs) = .found (lookupKV kvs "FIREFOX_ESR115") := by
  unfold detectFirefoxRelease
  simp [hbv, hkvs, h1, h2, h3, jsLE0, jsGT0]

/-- Witness for C3's amended theorem at the spec's own example snapshot. -/
theorem detect_below_all_floors_returns_esr115_witness :
    (("90.0" : String) ≠ "") ∧
    detectFirefoxRelease (some "90.0") (some snapshotC3) =
      .found (lookupKV snapshotC3 "FIREFOX_ESR115") :=
  ⟨by decide,
   detect_below_all_floors_returns_esr115 "90.0" snapshotC3
     (by decide) (by decide) (by decide) (by decide) (by decide)⟩

/-- Claim C4, counterexample: `compareVersions("140.0", "140.0-gnu5")` returns
`1`, not the claimed `-1`. -/
theorem gnu_marker_counterexample :
    compareVersions (some "140.0") (some "140.0-gnu5") ≠ some (-1) := by
  decide

/-- Claim C4 (amended): when the numeric cores tie and the second argument
carries the `gnu` marker suffix, `compareVersions` returns `1` (first argument
ranked newer-or-equal), and `compareVersions("140.0-gnu5", "140.0")` also
returns `1` — both orders rank the first argument as newer-or-equal. -/
theorem gnu_marker_both_orders_one :
    compareVersions (some "140.0") (some "140.0-gnu5") = some 1 ∧
    compareVersions (some "140.0-gnu5") (some "140.0") = some 1 := by
  decide

/-- Claim C5, counterexample: with a non-expired lease stored (expires 5000 >
now 1000), `isRunning(true)` still returns `true` and overwrites the stored
lease (5000 becomes 1000 + 120000 = 121000), contradicting "returns false and
leaves the stored lease unchanged". -/
theorem lease_acquire_counterexample :
    (1000 : Int) < 5000 ∧
    isRunning (some true) isRunningDefaultExpiresMs 1000 (some 5000) = (true, some 121000) ∧
    (121000 : Int) ≠ 5000 := by
  decide

/-- Claim C5 (amended): `isRunning(true)` unconditionally stores a fresh lease
expiring at `now + expiresMs` (default 2 minutes) and returns `true` whatever
lease exists — so two acquisitions before any release both return `true`; the
status query `isRunning()` does treat a lease whose expiry is not in the
future as absent; `isRunning(false)` clears the lease. -/
theorem lease_acquire_unconditional (now expiresMs exp : Int) (lease : Option Int)
    (h : exp ≤ now) :
    isRunning (some true) expiresMs now lease = (true, some (now + expiresMs)) ∧
    (isRunning none expiresMs now (some exp)).1 = false ∧
    isRunning (some false) expiresMs now lease = (false, none) := by
  refine ⟨rfl, ?_, rfl⟩
  exact decide_eq_false (by omega)

/-- Witness for C5's amended theorem at a concrete expired-lease instance. -/
theorem lease_acquire_unconditional_witness :
    ((3 : Int) ≤ 10) ∧
    (isRunning (some true) 120000 10 (some 9999) = (true, some 120010) ∧
     (isRunning none 120000 10 (some 3)).1 = false ∧
     isRunning (some false) 120000 10 (some 9999) = (false, none)) :=
  ⟨by decide, lease_acquire_unconditional 10 120000 3 (some 9999) (by decide)⟩

/-- Claim C6, counterexample: with a fresh cache entry stored (age 50 ms,
TTL 300000 ms), `fetchLatestVersion` still acquires the run-lease (the stored
lease becomes `now + 120000`) and proceeds to the network loop instead of
returning the cached payload. -/
theorem fresh_cache_counterexample :
    (1000 : Int) - 950 < 300000 ∧
    fetchLatestVersionPrefix updateCheckerUseCacheProp 300000 1000
      (some ⟨.obj [], 950⟩) none = .networkAttempt (some 121000) := by
  decide

/-- Claim C6 (amended): every `fetchLatestVersion` call first acquires the
run-lease (line 360 precedes the cache test of line 362), and because the
`useCache` property it tests is never assigned anywhere in the repository, the
fresh-cache return path is unreachable: every call proceeds to the network
fetch loop holding the lease, regardless of the cached entry's age. -/
theorem fetch_prefix_always_network (ttlMs now : Int)
    (cachedEntry : Option VersionCacheEntry) (lease : Option Int) :
    fetchLatestVersionPrefix updateCheckerUseCacheProp ttlMs now cachedEntry lease =
      .networkAttempt (some (now + isRunningDefaultExpiresMs)) := by
  unfold fetchLatestVersionPrefix updateCheckerUseCacheProp jsTruthy
  cases cachedEntry <;> simp [isRunning]

/-- Claim C7, counterexample: with another check marked running (lease expires
100 > now 0) and `useCache=false`, `isLatest` returns `undefined` but the
persisted `is_latest` entry is removed (line 451 runs before the contention
check), so the persisted CheckResult is not left unchanged. -/
theorem contention_side_effect_counterexample :
    (0 : Int) < 100 ∧
    (isLatest false ⟨"Firefox", "141.0", 0, none⟩ (some ⟨some "142.0", some true, 5⟩)
        (some 100)).result = .undef ∧
    (isLatest false ⟨"Firefox", "141.0", 0, none⟩ (some ⟨some "142.0", some true, 5⟩)
        (some 100)).entry ≠ some ⟨some "142.0", some true, 5⟩ := by
  decide

/-- Claim C7 (amended): when another check is marked running, `isLatest` returns
`undefined` without calling `fetchLatestVersion` and without touching the
lease; with `useCache=true` the persisted result is left unchanged, but with
`useCache=false` any persisted result has already been removed before the
contention check, so the key is left absent. -/
theorem contention_returns_undefined (useCache : Bool) (env : CheckerEnv)
    (entry0 : Option StateEntry) (exp : Int) (h : env.now < exp) :
    (isLatest useCache env entry0 (some exp)).result = .undef ∧
    (isLatest useCache env entry0 (some exp)).lease = some exp ∧
    (isLatest useCache env entry0 (some exp)).fetchCalled = false ∧
    (isLatest useCache env entry0 (some exp)).entry =
      (if useCache then entry0 else none) := by
  have hr : (isRunning none isRunningDefaultExpiresMs env.now (some exp)).1 = true :=
    decide_eq_true (by omega)
  unfold isLatest
  simp only [hr, if_true]
  refine ⟨by trivial, by trivial, by trivial, ?_⟩
  cases useCache <;> cases entry0 <;> simp

/-- Witness for C7's amended theorem at a concrete running-lease instance. -/
theorem contention_returns_undefined_witness :
    ((0 : Int) < 100) ∧
    ((isLatest true ⟨"LibreWolf", "141.0", 0, none⟩ none (some 100)).result = .undef ∧
     (isLatest true ⟨"LibreWolf", "141.0", 0, none⟩ none (some 100)).lease = some 100 ∧
     (isLatest true ⟨"LibreWolf", "141.0", 0, none⟩ none (some 100)).fetchCalled = false ∧
     (isLatest true ⟨"LibreWolf", "141.0", 0, none⟩ none (some 100)).entry =
       (if true then (none : Option StateEntry) else none)) :=
  ⟨by decide, contention_returns_undefined true ⟨"LibreWolf", "141.0", 0, none⟩ none 100 (by decide)⟩

/-- Claim C8, counterexample: a check completed with errorCause `"unsupported"`
while the stored alert mode is `"tab"`: the desktop-notification branch is
skipped, so the stored settings are NOT forced to `"both"`/`"0"` (the schedule
stays `"480"`) and nothing is notified — contradicting "regardless of the
previously stored alert mode". -/
theorem unsupported_escalation_counterexample :
    sendNotification none ⟨some "tab", some "480"⟩ (some (some "unsupported")) =
      ⟨⟨some "tab", some "480"⟩, true, false, false⟩ := by
  decide

/-- Claim C8 (amended): the `"unsupported"` escalation — forcing the stored
alert configuration to `"both"` and the stored schedule to `"0"` before
notifying — happens only when the effective alert mode is `"notif"` or
`"both"`; with mode `"tab"` or `"disabled"` the stored settings are left
unchanged. -/
theorem unsupported_escalation_needs_notif_mode (managed : Option SyncSettings)
    (sync0 : SyncSettings)
    (h : (effectiveConfig managed sync0).alert_type = some "notif" ∨
         (effectiveConfig managed sync0).alert_type = some "both") :
    (sendNotification managed sync0 (some (some "unsupported"))).sync =
      ⟨some "both", some "0"⟩ ∧
    (sendNotification managed sync0 (some (some "unsupported"))).sentNotif = true ∧
    (sendNotification managed sync0 (some (some "unsupported"))).alarmRescheduled = true := by
  simp [sendNotification, h]

/-- Witness for C8's amended theorem with stored mode `"both"`. -/
theorem unsupported_escalation_needs_notif_mode_witness :
    ((effectiveConfig none ⟨some "both", some "720"⟩).alert_type = some "notif" ∨
     (effectiveConfig none ⟨some "both", some "720"⟩).alert_type = some "both") ∧
    ((sendNotification none ⟨some "both", some "720"⟩ (some (some "unsupported"))).sync =
        ⟨some "both", some "0"⟩ ∧
     (sendNotification none ⟨some "both", some "720"⟩ (some (some "unsupported"))).sentNotif = true ∧
     (sendNotification none ⟨some "both", some "720"⟩
        (some (some "unsupported"))).alarmRescheduled = true) :=
  ⟨by decide, unsupported_escalation_needs_notif_mode none ⟨some "both", some "720"⟩ (by decide)⟩

/-- Claim C9 (confirmed): `compareVersions` returns `null` exactly when at least
one input is not a non-empty string, and otherwise always returns one of
`-1`, `0`, `1`. -/
theorem compareVersions_null_iff_invalid_and_range (a b : Option String) :
    (compareVersions a b = none ↔ a = none ∨ a = some "" ∨ b = none ∨ b = some "") ∧
    (∀ r : Int, compareVersions a b = some r → r = -1 ∨ r = 0 ∨ r = 1) := by
  constructor
  · cases a with
    | none => cases b <;> simp [compareVersions]
    | some bv =>
      cases b with
      | none => simp [compareVersions]
      | some lv =>
        simp only [compareVersions, Option.some.injEq, reduceCtorEq, false_or]
        by_cases h : bv = "" ∨ lv = "" <;> simp [h]
  · intro r hr
    cases a with
    | none => cases b <;> simp [compareVersions] at hr
    | some bv =>
      cases b with
      | none => simp [compareVersions] at hr
      | some lv =>
        simp only [compareVersions] at hr
        split at hr
        · exact absurd hr (by simp)
        · rw [Option.some.injEq] at hr
          rw [← hr]
          exact compareCore_cases _ _

/-- Witness for C9's theorem: the range clause applied at a concrete input. -/
theorem compareVersions_null_iff_invalid_and_range_witness :
    (1 : Int) = -1 ∨ (1 : Int) = 0 ∨ (1 : Int) = 1 :=
  (compareVersions_null_iff_invalid_and_range (some "1.2.10") (some "1.2.9")).2 1 (by decide)

/-- Claim C10 (confirmed): for non-empty version strings with a pure numeric
core (no `-` on either side), `compareVersions` is antisymmetric:
`compareVersions(a, b) = -compareVersions(b, a)`. -/
theorem compareVersions_antisymm_numeric_core (a b : String)
    (ha : a ≠ "") (hb : b ≠ "") (ha2 : '-' ∉ a.toList) (hb2 : '-' ∉ b.toList) :
    compareVersions (some a) (some b) =
      (compareVersions (some b) (some a)).map (fun r => -r) := by
  unfold compareVersions
  simp only [ha, hb, or_self, if_false]
  rw [compareCore_antisymm ha2 hb2]
  rfl

/-- Witness for C10's theorem at the spec's own example pair. -/
theorem compareVersions_antisymm_numeric_core_witness :
    compareVersions (some "1.2.10") (some "1.2.9") =
      (compareVersions (some "1.2.9") (some "1.2.10")).map (fun r => -r) :=
  compareVersions_antisymm_numeric_core "1.2.10" "1.2.9"
    (by decide) (by decide) (by decide) (by decide)
